import Mathlib

/-!
Verification of the ShowTime seat-reservation backend (`main.py`, `schemas.py`).

The embedding models the documents of the Mongo collections as Lean
structures (following `schemas.py`), the database as association lists
keyed by string ids, and the two core endpoints `get_seats`
(`GET /seats/{showtime_id}`, main.py lines 161-186) and `book_seats`
(`POST /book`, main.py lines 194-218) as pure functions from the database
state.  Monetary amounts (Python floats such as `350.0`) are modelled as
rationals; the arithmetic performed by the code (one multiplication of a
price by a seat count) is exact at this granularity.

`database.py` is imported by `main.py` but is not part of the sources;
its `create_document` is modelled from the spec (see the doc comment on
`create_document` below).  Mongo's `find_one` / `find` are modelled as
first-match lookup / filter over the stored documents.
-/

/-- A `screen` document (schemas.py lines 25-29).  `get_seats` reads the
geometry with `screen.get("rows", 8)` and `screen.get("seats_per_row", 12)`,
so the fields are modelled as optional with those defaults applied at the
read site (main.py lines 167-168). -/
structure Screen where
  cinema_id : String
  name : String
  rows : Option Nat
  seats_per_row : Option Nat
deriving Repr, DecidableEq

/-- A `showtime` document (schemas.py lines 31-37).  `price_map` maps a
category name to a price; prices are modelled as rationals. -/
structure Showtime where
  movie_id : String
  cinema_id : String
  screen_id : String
  start_time : String
  language : String
  price_map : List (String × ℚ)
deriving Repr, DecidableEq

/-- A `booking` document (schemas.py lines 39-44). -/
structure Booking where
  showtime_id : String
  customer_name : String
  customer_email : String
  seats : List String
  total_amount : ℚ
deriving Repr, DecidableEq

/-- The mutable database state: the `showtime` and `screen` collections
(read-only for the two core endpoints) and the `booking` collection,
which is the booking ledger. -/
structure DB where
  showtimes : List (String × Showtime)
  screens : List (String × Screen)
  bookings : List Booking
deriving Repr, DecidableEq

/-- `db["showtime"].find_one({"_id": ObjectId(id)})` (main.py lines 163, 197):
first document whose id matches. -/
def findShowtime (db : DB) (i : String) : Option Showtime :=
  db.showtimes.lookup i

/-- `db["screen"].find_one({"_id": ObjectId(st["screen_id"])})` (main.py
line 166). -/
def findScreen (db : DB) (i : String) : Option Screen :=
  db.screens.lookup i

/-- Error outcomes of the two endpoints: `notFound` is
`HTTPException(404)`, `conflict` is `HTTPException(409)`, and
`attributeError` is an unhandled Python `AttributeError` (surfaced as an
HTTP 500, not a 404), raised when `screen.get` is called on `None`
(main.py line 167 after a failed screen lookup). -/
inductive ApiError where
  | notFound
  | conflict
  | attributeError
deriving Repr, DecidableEq

/-- The seat code `f"{row_label}{c}"` with `row_label = chr(ord('A') + r)`
(main.py lines 179, 182): row index `r` is zero-based, column `c` is
one-based. -/
def seatCode (r c : Nat) : String :=
  (Char.ofNat ('A'.toNat + r)).toString ++ toString c

/-- One entry of the seat grid: `{"code": code, "available": code not in booked}`
(main.py line 183). -/
structure SeatEntry where
  code : String
  available : Bool
deriving Repr, DecidableEq

/-- Response of `GET /seats/{showtime_id}`:
`{"grid": grid, "price_map": st.get("price_map", {})}` (main.py line 186). -/
structure SeatMapResponse where
  grid : List (List SeatEntry)
  price_map : List (String × ℚ)
deriving Repr, DecidableEq

/-- Union (as a list; only membership matters) of the seat lists of all
bookings for the given showtime:
`db["booking"].find({"showtime_id": showtime_id}, {"seats": 1})` followed
by the accumulation loop into `booked` (main.py lines 171-175). -/
def bookedSeats (db : DB) (showtime_id : String) : List String :=
  ((db.bookings.filter (fun b => b.showtime_id == showtime_id)).map
    (fun b => b.seats)).flatten

/-- The seat grid loop of `get_seats` (main.py lines 177-184): rows
`0..rows-1`, columns `1..seats_per_row`, row-major, each entry available
iff its code is not among the booked seats. -/
def seatGrid (rows seats_per_row : Nat) (booked : List String) :
    List (List SeatEntry) :=
  (List.range rows).map (fun r =>
    (List.range seats_per_row).map (fun i =>
      { code := seatCode r (i + 1),
        available := !(booked.contains (seatCode r (i + 1))) }))

/-- `GET /seats/{showtime_id}` (main.py lines 161-186). -/
def get_seats (db : DB) (showtime_id : String) :
    Except ApiError SeatMapResponse :=
  match findShowtime db showtime_id with
  | none => .error .notFound
  | some st =>
    match findScreen db st.screen_id with
    | none => .error .attributeError
    | some screen =>
      let rows := screen.rows.getD 8
      let seats_per_row := screen.seats_per_row.getD 12
      let booked := bookedSeats db showtime_id
      .ok { grid := seatGrid rows seats_per_row booked,
            price_map := st.price_map }

/-- Request body of `POST /book` (main.py lines 188-192). -/
structure BookingRequest where
  showtime_id : String
  customer_name : String
  customer_email : String
  seats : List String
deriving Repr, DecidableEq

/-- Response of `POST /book`:
`{"booking_id": booking_id, "total": total}` (main.py line 218).  The id
assigned by the store is modelled as the index of the new ledger entry. -/
structure BookResponse where
  booking_id : Nat
  total : ℚ
deriving Repr, DecidableEq

/-- Modelled from the spec: `create_document` lives in `database.py`,
which is not among the sources.  Per section 6 of the spec the ledger
interface is `commitBooking(booking) -> id`: the booking is appended to
the `booking` collection and the assigned identity is returned. -/
def create_document (db : DB) (b : Booking) : DB × Nat :=
  ({ db with bookings := db.bookings ++ [b] }, db.bookings.length)

/-- The Mongo conflict query
`{"showtime_id": req.showtime_id, "seats": {"$in": req.seats}}`
(main.py line 202) as a predicate on one booking document: same showtime
and some element of the stored `seats` array lies in `req.seats`. -/
def conflicts (req : BookingRequest) (b : Booking) : Bool :=
  b.showtime_id == req.showtime_id &&
    b.seats.any (fun s => req.seats.contains s)

/-- `POST /book` (main.py lines 194-218). -/
def book_seats (db : DB) (req : BookingRequest) :
    Except ApiError (DB × BookResponse) :=
  match findShowtime db req.showtime_id with
  | none => .error .notFound
  | some st =>
    let existing := db.bookings.filter (conflicts req)
    if existing.isEmpty then
      let base_price := (st.price_map.lookup "Gold").getD 300
      let total := base_price * (req.seats.length : ℚ)
      let booking : Booking :=
        { showtime_id := req.showtime_id,
          customer_name := req.customer_name,
          customer_email := req.customer_email,
          seats := req.seats,
          total_amount := total }
      let r := create_document db booking
      .ok (r.1, { booking_id := r.2, total := total })
    else
      .error .conflict

/-- The database state after one `POST /book` request: on success the
state returned by the handler, on failure the old state (the handler
raises before `create_document` is reached, main.py lines 199, 204). -/
def bookStep (db : DB) (req : BookingRequest) : DB :=
  match book_seats db req with
  | .ok (db', _) => db'
  | .error _ => db

/-- The disjointness invariant of the spec (section 3): for any showtime,
the seat sets of the committed bookings referencing it are pairwise
disjoint. -/
def DisjointLedger (bs : List Booking) : Prop :=
  bs.Pairwise (fun a b =>
    a.showtime_id = b.showtime_id → ∀ s, s ∈ a.seats → s ∉ b.seats)

instance (bs : List Booking) : Decidable (DisjointLedger bs) := by
  unfold DisjointLedger; infer_instance

/-- The addressable seat space derived from a screen's geometry (spec
section 3): all codes of the `rows × seats_per_row` grid. -/
def addressableSeats (rows seats_per_row : Nat) : List String :=
  ((List.range rows).map (fun r =>
    (List.range seats_per_row).map (fun i => seatCode r (i + 1)))).flatten

example : seatCode 0 1 = "A1" := by decide
example : seatCode 7 12 = "H12" := by decide
example : addressableSeats 1 3 = ["A1", "A2", "A3"] := by decide

/-! ## Inversion lemmas for `book_seats` -/

/-- A successful `book_seats` call passed the conflict check, left the
catalog collections untouched, charged the Gold rate (default 300) per
seat and appended exactly one booking carrying the requested seats. -/
theorem book_seats_ok_inv (db : DB) (req : BookingRequest) (st : Showtime)
    (db' : DB) (resp : BookResponse)
    (hst : findShowtime db req.showtime_id = some st)
    (h : book_seats db req = .ok (db', resp)) :
    db.bookings.filter (conflicts req) = [] ∧
    db'.showtimes = db.showtimes ∧ db'.screens = db.screens ∧
    resp.total = ((st.price_map.lookup "Gold").getD 300) *
      (req.seats.length : ℚ) ∧
    db'.bookings = db.bookings ++
      [{ showtime_id := req.showtime_id, customer_name := req.customer_name,
         customer_email := req.customer_email, seats := req.seats,
         total_amount := resp.total }] := by
  by_cases hemp : (db.bookings.filter (conflicts req)).isEmpty
  · rw [List.isEmpty_iff] at hemp
    simp only [book_seats, hst, hemp, List.isEmpty_nil, if_true,
      create_document, Except.ok.injEq, Prod.mk.injEq] at h
    obtain ⟨hdb, hresp⟩ := h
    subst hdb
    subst hresp
    simp [hemp]
  · simp only [book_seats, hst, hemp, if_false] at h
    exact absurd h (by simp)

/-- A failed `book_seats` call leaves the database unchanged: the handler
raises before `create_document` is reached. -/
theorem book_seats_error_inv (db : DB) (req : BookingRequest) (e : ApiError)
    (h : book_seats db req = .error e) : bookStep db req = db := by
  simp [bookStep, h]

/-- An empty conflict-query result means every committed booking for the
requested showtime is seat-disjoint from the request. -/
theorem filter_conflicts_nil (db : DB) (req : BookingRequest)
    (hfil : db.bookings.filter (conflicts req) = []) :
    ∀ a ∈ db.bookings, a.showtime_id = req.showtime_id →
      ∀ s, s ∈ a.seats → s ∉ req.seats := by
  intro a ha heq s hs hmem
  apply List.filter_eq_nil_iff.mp hfil a ha
  simp only [conflicts, Bool.and_eq_true, heq, beq_self_eq_true, true_and,
    List.any_eq_true, List.contains, List.elem_iff]
  exact ⟨s, hs, hmem⟩

/-! ## C1: the disjointness invariant is preserved -/

/-- Appending a booking that is seat-disjoint (for its showtime) from all
existing bookings keeps the ledger disjoint. -/
theorem DisjointLedger_append (bs : List Booking) (bk : Booking)
    (h : DisjointLedger bs)
    (hdisj : ∀ a ∈ bs, a.showtime_id = bk.showtime_id →
      ∀ s, s ∈ a.seats → s ∉ bk.seats) :
    DisjointLedger (bs ++ [bk]) := by
  unfold DisjointLedger at h ⊢
  rw [List.pairwise_append]
  refine ⟨h, List.pairwise_singleton _ _, ?_⟩
  intro a ha b hb
  have hb' : b = bk := by simpa using hb
  subst hb'
  exact hdisj a ha

/-- One `POST /book` request preserves the disjointness invariant. -/
theorem bookStep_preserves (db : DB) (req : BookingRequest)
    (h : DisjointLedger db.bookings) :
    DisjointLedger (bookStep db req).bookings := by
  rcases hb : book_seats db req with e | ⟨db', resp⟩
  · simp only [bookStep, hb]
    exact h
  · cases hst : findShowtime db req.showtime_id with
    | none => simp [book_seats, hst] at hb
    | some st =>
      obtain ⟨hfil, -, -, -, hbk⟩ := book_seats_ok_inv db req st db' resp hst hb
      simp only [bookStep, hb]
      rw [hbk]
      exact DisjointLedger_append _ _ h
        (fun a ha heq s hs => filter_conflicts_nil db req hfil a ha heq s hs)

/-- C1: Starting from a ledger in which no seat code appears in two
committed bookings for the same showtime, every sequence of book
operations (each either committing a booking or failing) preserves this:
for every showtime the seat sets of the committed bookings referencing it
stay pairwise disjoint, because `book_seats` commits only when no
existing booking for the showtime intersects the requested seat set. -/
theorem booking_disjointness_preserved (reqs : List BookingRequest)
    (db : DB) (h : DisjointLedger db.bookings) :
    DisjointLedger ((reqs.foldl bookStep db).bookings) := by
  induction reqs generalizing db with
  | nil => exact h
  | cons r rs ih => exact ih (bookStep db r) (bookStep_preserves db r h)

/-! ## Concrete sample data used by the witnesses -/

/-- A sample screen with a 1 × 3 grid (addressable seats `A1 A2 A3`). -/
def exScreen : Screen :=
  { cinema_id := "c1", name := "Screen 1",
    rows := some 1, seats_per_row := some 3 }

/-- A sample showtime on `exScreen`, with the seeded price map
(main.py line 86). -/
def exShowtime : Showtime :=
  { movie_id := "m1", cinema_id := "c1", screen_id := "sc1",
    start_time := "2026-01-01T12:00:00", language := "English",
    price_map := [("Silver", 200), ("Gold", 350), ("Platinum", 500)] }

/-- A sample database with one showtime, its screen and an empty ledger. -/
def exDb : DB :=
  { showtimes := [("st1", exShowtime)], screens := [("sc1", exScreen)],
    bookings := [] }

/-- A committed booking holding seat `A1` of showtime `st1`. -/
def exBooking : Booking :=
  { showtime_id := "st1", customer_name := "n0", customer_email := "e0",
    seats := ["A1"], total_amount := 350 }

/-- `exDb` with `exBooking` already committed. -/
def exDb2 : DB :=
  { showtimes := [("st1", exShowtime)], screens := [("sc1", exScreen)],
    bookings := [exBooking] }

/-- A request overlapping `exBooking` on seat `A1`. -/
def exReqConflict : BookingRequest :=
  { showtime_id := "st1", customer_name := "n1", customer_email := "e1",
    seats := ["A1", "A2"] }

/-- A request naming a showtime id absent from `exDb`. -/
def exReqUnknown : BookingRequest :=
  { showtime_id := "nope", customer_name := "n1", customer_email := "e1",
    seats := ["A1"] }

/-- A sequence of booking requests: the first commits, the second
conflicts on `A2`, the third names an unknown showtime. -/
def exReqs : List BookingRequest :=
  [{ showtime_id := "st1", customer_name := "n1", customer_email := "e1",
     seats := ["A1", "A2"] },
   { showtime_id := "st1", customer_name := "n2", customer_email := "e2",
     seats := ["A2", "A3"] },
   { showtime_id := "zzz", customer_name := "n3", customer_email := "e3",
     seats := ["A1"] }]

/-- Witness for C1 at a concrete initial ledger and request sequence. -/
theorem booking_disjointness_preserved_witness :
    DisjointLedger ((exReqs.foldl bookStep exDb).bookings) :=
  booking_disjointness_preserved exReqs exDb (by decide)

/-! ## C2: conflict failure iff an overlapping committed booking exists -/

/-- C2: For every book call on an existing showtime, the call fails with
`Conflict` (HTTP 409) iff some already-committed booking for the same
showtime has a seat set intersecting the requested one; on any failure
the ledger is unchanged. -/
theorem conflict_iff_overlap (db : DB) (req : BookingRequest)
    (st : Showtime) (hst : findShowtime db req.showtime_id = some st) :
    (book_seats db req = .error .conflict ↔
      ∃ b ∈ db.bookings, b.showtime_id = req.showtime_id ∧
        ∃ s ∈ b.seats, s ∈ req.seats) ∧
    (∀ e, book_seats db req = .error e → bookStep db req = db) := by
  by_cases hemp : (db.bookings.filter (conflicts req)).isEmpty
  · rw [List.isEmpty_iff] at hemp
    refine ⟨⟨?_, ?_⟩, fun e he => book_seats_error_inv db req e he⟩
    · intro h
      simp [book_seats, hst, hemp] at h
    · rintro ⟨b, hb, hbs, s, hsb, hsr⟩
      exact absurd hsr (filter_conflicts_nil db req hemp b hb hbs s hsb)
  · refine ⟨⟨?_, ?_⟩, fun e he => book_seats_error_inv db req e he⟩
    · intro _
      have hne : db.bookings.filter (conflicts req) ≠ [] := by
        intro hnil
        exact hemp (by simp [hnil])
      obtain ⟨b, hbmem⟩ := List.exists_mem_of_ne_nil _ hne
      obtain ⟨hb, hcb⟩ := List.mem_filter.mp hbmem
      refine ⟨b, hb, ?_⟩
      simp only [conflicts, Bool.and_eq_true, List.any_eq_true,
        List.contains, List.elem_iff, beq_iff_eq] at hcb
      exact hcb
    · intro _
      simp only [book_seats, hst]
      rw [if_neg hemp]

/-- Witness for C2 at a concrete conflicting request. -/
theorem conflict_iff_overlap_witness :
    book_seats exDb2 exReqConflict = .error .conflict ∧
    bookStep exDb2 exReqConflict = exDb2 := by
  have h := conflict_iff_overlap exDb2 exReqConflict exShowtime (by decide)
  have hc := h.1.mpr ⟨exBooking, by decide, by decide, "A1", by decide, by decide⟩
  exact ⟨hc, h.2 ApiError.conflict hc⟩

/-! ## C8: booking an unknown showtime -/

/-- C8: A book call naming a showtime id that resolves to no showtime
fails with `NotFound` and leaves the booking ledger unchanged. -/
theorem book_unknown_showtime_notfound (db : DB) (req : BookingRequest)
    (h : findShowtime db req.showtime_id = none) :
    book_seats db req = .error .notFound ∧ bookStep db req = db := by
  have hb : book_seats db req = .error .notFound := by
    simp [book_seats, h]
  exact ⟨hb, book_seats_error_inv db req _ hb⟩

/-- Witness for C8 at a concrete unknown showtime id. -/
theorem book_unknown_showtime_notfound_witness :
    book_seats exDb exReqUnknown = .error .notFound ∧
    bookStep exDb exReqUnknown = exDb :=
  book_unknown_showtime_notfound exDb exReqUnknown (by decide)

/-- Equality of endpoint results is decidable, so witnesses can be
checked by evaluation. -/
instance {ε α : Type} [DecidableEq ε] [DecidableEq α] :
    DecidableEq (Except ε α) := fun x y =>
  match x, y with
  | .ok a, .ok b => decidable_of_iff (a = b) (by simp)
  | .error a, .error b => decidable_of_iff (a = b) (by simp)
  | .ok _, .error _ => isFalse (by simp)
  | .error _, .ok _ => isFalse (by simp)

/-! ## C7: the total is the Gold rate times the seat count -/

/-- C7: A successful book call on a showtime whose price map contains the
`Gold` category returns, and stores in the committed booking, a total
equal to the Gold rate times the number of requested seats, independent
of which seats are requested. -/
theorem total_gold_rate (db : DB) (req : BookingRequest) (st : Showtime)
    (g : ℚ) (db' : DB) (resp : BookResponse)
    (hst : findShowtime db req.showtime_id = some st)
    (hg : st.price_map.lookup "Gold" = some g)
    (hok : book_seats db req = .ok (db', resp)) :
    resp.total = g * (req.seats.length : ℚ) ∧
    db'.bookings = db.bookings ++
      [{ showtime_id := req.showtime_id, customer_name := req.customer_name,
         customer_email := req.customer_email, seats := req.seats,
         total_amount := g * (req.seats.length : ℚ) }] := by
  obtain ⟨-, -, -, htot, hbk⟩ := book_seats_ok_inv db req st db' resp hst hok
  rw [hg] at htot
  simp only [Option.getD_some] at htot
  refine ⟨htot, ?_⟩
  rw [hbk, htot]

/-- A request booking seats `A1 A2` of showtime `st1`. -/
def exReqBook : BookingRequest :=
  { showtime_id := "st1", customer_name := "n1", customer_email := "e1",
    seats := ["A1", "A2"] }

/-- The state after `exReqBook` succeeds on `exDb`: one committed booking
at the Gold rate 350 per seat. -/
def exDbAfter : DB :=
  { showtimes := [("st1", exShowtime)], screens := [("sc1", exScreen)],
    bookings := [{ showtime_id := "st1", customer_name := "n1",
                   customer_email := "e1", seats := ["A1", "A2"],
                   total_amount := 700 }] }

/-- Witness for C7 at a concrete successful booking. -/
theorem total_gold_rate_witness :
    (({ booking_id := 0, total := 700 } : BookResponse)).total =
      350 * ((exReqBook.seats.length : ℚ)) ∧
    exDbAfter.bookings = exDb.bookings ++
      [{ showtime_id := exReqBook.showtime_id,
         customer_name := exReqBook.customer_name,
         customer_email := exReqBook.customer_email,
         seats := exReqBook.seats,
         total_amount := 350 * ((exReqBook.seats.length : ℚ)) }] :=
  total_gold_rate exDb exReqBook exShowtime 350 exDbAfter
    { booking_id := 0, total := 700 } (by decide) (by decide)
    (by
      have hbeq : ("Gold" == "Silver") = false := rfl
      norm_num [book_seats, findShowtime, exDb, exDbAfter, exShowtime,
        exReqBook, conflicts, create_document, List.lookup, hbeq])

/-! ## C10: missing Gold key falls back to the default rate 300 -/

/-- C10: A book call on an existing showtime whose price map has no
`Gold` key does not fail for that reason: when the conflict query is
empty it commits, charging the default rate 300 per requested seat. -/
theorem total_default_rate (db : DB) (req : BookingRequest) (st : Showtime)
    (hst : findShowtime db req.showtime_id = some st)
    (hg : st.price_map.lookup "Gold" = none)
    (hnc : db.bookings.filter (conflicts req) = []) :
    book_seats db req =
      .ok ({ db with bookings := db.bookings ++
        [{ showtime_id := req.showtime_id, customer_name := req.customer_name,
           customer_email := req.customer_email, seats := req.seats,
           total_amount := 300 * (req.seats.length : ℚ) }] },
        { booking_id := db.bookings.length,
          total := 300 * (req.seats.length : ℚ) }) := by
  simp [book_seats, hst, hnc, hg, create_document]

/-- A showtime whose price map lacks the `Gold` category. -/
def exShowtimeNoGold : Showtime :=
  { movie_id := "m1", cinema_id := "c1", screen_id := "sc1",
    start_time := "2026-01-01T12:00:00", language := "English",
    price_map := [("Silver", 200)] }

/-- A database whose only showtime has no `Gold` price. -/
def exDbNoGold : DB :=
  { showtimes := [("st2", exShowtimeNoGold)], screens := [("sc1", exScreen)],
    bookings := [] }

/-- A request for two seats of the Gold-less showtime. -/
def exReqNoGold : BookingRequest :=
  { showtime_id := "st2", customer_name := "n1", customer_email := "e1",
    seats := ["A1", "B2"] }

/-- Witness for C10: the total falls back to 300 per seat. -/
theorem total_default_rate_witness :
    book_seats exDbNoGold exReqNoGold =
      .ok ({ exDbNoGold with bookings := exDbNoGold.bookings ++
        [{ showtime_id := exReqNoGold.showtime_id,
           customer_name := exReqNoGold.customer_name,
           customer_email := exReqNoGold.customer_email,
           seats := exReqNoGold.seats,
           total_amount := 300 * (exReqNoGold.seats.length : ℚ) }] },
        { booking_id := exDbNoGold.bookings.length,
          total := 300 * (exReqNoGold.seats.length : ℚ) }) :=
  total_default_rate exDbNoGold exReqNoGold exShowtimeNoGold
    (by decide) (by decide) (by decide)

/-! ## C3: empty seat lists are not rejected (claim corrected) -/

/-- A request with an empty seats list for showtime `st1`. -/
def exReqEmpty : BookingRequest :=
  { showtime_id := "st1", customer_name := "n1", customer_email := "e1",
    seats := [] }

/-- A second empty-seats request, against the nonempty ledger `exDb2`. -/
def exReqEmpty2 : BookingRequest :=
  { showtime_id := "st1", customer_name := "n2", customer_email := "e2",
    seats := [] }

/-- A request for the nonexistent seat `Z99` of the 1 × 3 screen. -/
def exReqZ99 : BookingRequest :=
  { showtime_id := "st1", customer_name := "n1", customer_email := "e1",
    seats := ["Z99"] }

/-- Counterexample to C3: booking an empty seat list on an existing
showtime does not fail at all — `book_seats` performs no seat-list
validation (no `ValidationError` exists in the code), commits an empty
booking and returns total 0. -/
theorem empty_seats_booking_succeeds_cex :
    book_seats exDb exReqEmpty =
      .ok ({ exDb with bookings :=
        [{ showtime_id := "st1", customer_name := "n1",
           customer_email := "e1", seats := [], total_amount := 0 }] },
        { booking_id := 0, total := 0 }) := by
  norm_num [book_seats, findShowtime, exDb, exShowtime, exReqEmpty,
    conflicts, create_document, List.lookup]

/-- C3 amended: a book call with an empty seats list on an existing
showtime never conflicts, succeeds with total 0 and commits a booking
with an empty seat list; no validation error is raised. -/
theorem empty_seats_booking_commits (db : DB) (req : BookingRequest)
    (st : Showtime) (hst : findShowtime db req.showtime_id = some st)
    (hempty : req.seats = []) :
    book_seats db req =
      .ok ({ db with bookings := db.bookings ++
        [{ showtime_id := req.showtime_id, customer_name := req.customer_name,
           customer_email := req.customer_email, seats := [],
           total_amount := 0 }] },
        { booking_id := db.bookings.length, total := 0 }) := by
  have hnc : db.bookings.filter (conflicts req) = [] := by
    apply List.filter_eq_nil_iff.mpr
    intro a _
    simp [conflicts, hempty]
  simp [book_seats, hst, hnc, hempty, create_document]

/-- Witness for the amended C3 at a concrete empty request. -/
theorem empty_seats_booking_commits_witness :
    book_seats exDb2 exReqEmpty2 =
      .ok ({ exDb2 with bookings := exDb2.bookings ++
        [{ showtime_id := "st1", customer_name := "n2",
           customer_email := "e2", seats := [], total_amount := 0 }] },
        { booking_id := exDb2.bookings.length, total := 0 }) :=
  empty_seats_booking_commits exDb2 exReqEmpty2 exShowtime
    (by decide) (by decide)

/-! ## C9: no validation of seat codes against screen geometry -/

/-- C9: `book_seats` does not check requested seat codes against the
screen's geometry: on a 1 × 3 screen (addressable seats `A1 A2 A3`) a
request for `Z99` — outside the addressable space and conflicting with
nothing — succeeds and commits that seat instead of failing with
`InvalidSeat` (no such error exists in the code). -/
theorem out_of_space_seats_accepted :
    findShowtime exDb "st1" = some exShowtime ∧
    findScreen exDb exShowtime.screen_id = some exScreen ∧
    "Z99" ∉ addressableSeats (exScreen.rows.getD 8)
      (exScreen.seats_per_row.getD 12) ∧
    book_seats exDb exReqZ99 =
      .ok ({ exDb with bookings :=
        [{ showtime_id := "st1", customer_name := "n1",
           customer_email := "e1", seats := ["Z99"],
           total_amount := 350 }] },
        { booking_id := 0, total := 350 }) := by
  refine ⟨by decide, by decide, by decide, ?_⟩
  have hbeq : ("Gold" == "Silver") = false := rfl
  norm_num [book_seats, findShowtime, exDb, exShowtime, exReqZ99,
    conflicts, create_document, List.lookup, hbeq]

/-! ## C4: a missing screen crashes instead of returning NotFound -/

/-- A showtime whose `screen_id` references no stored screen. -/
def exShowtimeOrphan : Showtime :=
  { movie_id := "m1", cinema_id := "c1", screen_id := "missing",
    start_time := "2026-01-01T12:00:00", language := "English",
    price_map := [("Gold", 350)] }

/-- A database holding `exShowtimeOrphan` and no screens at all. -/
def exDbOrphan : DB :=
  { showtimes := [("st1", exShowtimeOrphan)], screens := [], bookings := [] }

/-- Counterexample to C4: with the showtime present but its screen
missing, `get_seats` does not fail with `NotFound`: `screen.get` is
called on `None` and the handler dies with an `AttributeError`
(an HTTP 500). -/
theorem missing_screen_not_notfound_cex :
    findShowtime exDbOrphan "st1" = some exShowtimeOrphan ∧
    findScreen exDbOrphan exShowtimeOrphan.screen_id = none ∧
    get_seats exDbOrphan "st1" = .error .attributeError ∧
    get_seats exDbOrphan "st1" ≠ .error .notFound := by
  decide

/-- C4 amended: `get_seats` fails with `NotFound` iff the showtime does
not exist; when the showtime exists but its referenced screen does not,
the call instead fails with an unhandled `AttributeError`. -/
theorem notfound_iff_showtime_missing (db : DB) (sid : String) :
    (get_seats db sid = .error .notFound ↔ findShowtime db sid = none) ∧
    (∀ st, findShowtime db sid = some st → findScreen db st.screen_id = none →
      get_seats db sid = .error .attributeError) := by
  constructor
  · cases hst : findShowtime db sid with
    | none => simp [get_seats, hst]
    | some st =>
      cases hsc : findScreen db st.screen_id with
      | none => simp [get_seats, hst, hsc]
      | some screen => simp [get_seats, hst, hsc]
  · intro st hst hsc
    simp [get_seats, hst, hsc]

/-- Witness for the amended C4 at a concrete orphaned showtime. -/
theorem notfound_iff_showtime_missing_witness :
    get_seats exDbOrphan "st1" = .error .attributeError :=
  (notfound_iff_showtime_missing exDbOrphan "st1").2 exShowtimeOrphan
    (by decide) (by decide)

/-! ## C5: the seat grid layout -/

/-- C5: On an 8 × 12 screen the grid holds exactly 96 entries, row-major,
with codes `A1`..`A12` through `H1`..`H12`; in general (for at most 26
rows) the entry at row index `r` and one-based column `c` carries the
code formed by the uppercase letter at alphabet position `r` followed by
the decimal digits of `c`, with no separator. -/
theorem seat_grid_layout : ∀ booked : List String,
    ((seatGrid 8 12 booked).map (fun row => row.map SeatEntry.code)) =
      [["A1", "A2", "A3", "A4", "A5", "A6", "A7", "A8", "A9", "A10", "A11", "A12"],
       ["B1", "B2", "B3", "B4", "B5", "B6", "B7", "B8", "B9", "B10", "B11", "B12"],
       ["C1", "C2", "C3", "C4", "C5", "C6", "C7", "C8", "C9", "C10", "C11", "C12"],
       ["D1", "D2", "D3", "D4", "D5", "D6", "D7", "D8", "D9", "D10", "D11", "D12"],
       ["E1", "E2", "E3", "E4", "E5", "E6", "E7", "E8", "E9", "E10", "E11", "E12"],
       ["F1", "F2", "F3", "F4", "F5", "F6", "F7", "F8", "F9", "F10", "F11", "F12"],
       ["G1", "G2", "G3", "G4", "G5", "G6", "G7", "G8", "G9", "G10", "G11", "G12"],
       ["H1", "H2", "H3", "H4", "H5", "H6", "H7", "H8", "H9", "H10", "H11", "H12"]] ∧
    ((seatGrid 8 12 booked).flatten).length = 96 ∧
    (∀ rows spr r c, rows ≤ 26 → r < rows → 1 ≤ c → c ≤ spr →
      'A'.toNat + r ≤ 'Z'.toNat ∧
      (((seatGrid rows spr booked).getD r []).getD (c - 1)
          { code := "", available := true }).code =
        (Char.ofNat ('A'.toNat + r)).toString ++ toString c) := by
  intro booked
  refine ⟨?_, ?_, ?_⟩
  · have hcodes : (seatGrid 8 12 booked).map (fun row => row.map SeatEntry.code) =
        (List.range 8).map (fun r =>
          (List.range 12).map (fun i => seatCode r (i + 1))) := by
      simp [seatGrid, List.map_map, Function.comp_def]
    rw [hcodes]
    decide
  · simp [seatGrid, List.map_map, Function.comp_def, List.map_const',
      List.sum_replicate, smul_eq_mul]
  · intro rows spr r c h26 hr hc1 hc2
    have hA : 'A'.toNat = 65 := rfl
    have hZ : 'Z'.toNat = 90 := rfl
    refine ⟨by rw [hA, hZ]; omega, ?_⟩
    have hc' : c - 1 < spr := by omega
    simp only [seatGrid, List.getD_eq_getElem?_getD, List.getElem?_map,
      List.getElem?_range hr, List.getElem?_range hc', Option.map_some',
      Option.getD_some]
    have hcc : c - 1 + 1 = c := Nat.sub_add_cancel hc1
    rw [hcc]
    rfl

/-- Witness for C5: the general indexing clause at row 1, column 2 of a
2 × 3 grid gives code `B2`. -/
theorem seat_grid_layout_witness :
    (((seatGrid 2 3 []).getD 1 []).getD 1
        { code := "", available := true }).code =
      (Char.ofNat ('A'.toNat + 1)).toString ++ toString 2 :=
  ((seat_grid_layout []).2.2 2 3 1 2 (by decide) (by decide) (by decide)
    (by decide)).2

/-! ## C6: availability marking and the price map -/

/-- Reduction of a successful `get_seats` call. -/
theorem get_seats_ok (db : DB) (sid : String) (st : Showtime)
    (screen : Screen)
    (hst : findShowtime db sid = some st)
    (hsc : findScreen db st.screen_id = some screen) :
    get_seats db sid = .ok
      { grid := seatGrid (screen.rows.getD 8) (screen.seats_per_row.getD 12)
          (bookedSeats db sid),
        price_map := st.price_map } := by
  simp [get_seats, hst, hsc]

/-- Every entry of the grid is unavailable exactly when its code is among
the booked seats used to build the grid. -/
theorem seatGrid_mem_available (rows spr : Nat) (bk : List String) :
    ∀ row ∈ seatGrid rows spr bk, ∀ e ∈ row,
      (e.available = false ↔ e.code ∈ bk) := by
  intro row hrow e he
  simp only [seatGrid, List.mem_map, List.mem_range] at hrow
  obtain ⟨r, -, rfl⟩ := hrow
  simp only [List.mem_map, List.mem_range] at he
  obtain ⟨i, -, rfl⟩ := he
  simp [List.contains, List.elem_iff]

/-- Committing a booking for the given showtime extends its booked-seat
union by exactly that booking's seats. -/
theorem bookedSeats_append (db' db : DB) (sid : String) (bk : Booking)
    (h : db'.bookings = db.bookings ++ [bk]) (hsid : bk.showtime_id = sid) :
    bookedSeats db' sid = bookedSeats db sid ++ bk.seats := by
  simp [bookedSeats, h, List.filter_append, hsid]

/-- C6: For an existing showtime with an existing screen, `get_seats`
marks a seat unavailable iff its code is in the union of the seat lists
of the committed bookings for that showtime, and returns the showtime's
price map unchanged; in particular, immediately after a successful book
call every seat of that booking shows as unavailable. -/
theorem seatmap_availability (db : DB) (sid : String) (st : Showtime)
    (screen : Screen)
    (hst : findShowtime db sid = some st)
    (hsc : findScreen db st.screen_id = some screen) :
    (∃ res, get_seats db sid = .ok res ∧
      res.price_map = st.price_map ∧
      ∀ row ∈ res.grid, ∀ e ∈ row,
        (e.available = false ↔ e.code ∈ bookedSeats db sid)) ∧
    (∀ req db' resp, req.showtime_id = sid →
      book_seats db req = .ok (db', resp) →
      ∃ res', get_seats db' sid = .ok res' ∧
        ∀ row ∈ res'.grid, ∀ e ∈ row, e.code ∈ req.seats →
          e.available = false) := by
  constructor
  · exact ⟨_, get_seats_ok db sid st screen hst hsc, rfl,
      fun row hrow e he => seatGrid_mem_available _ _ _ row hrow e he⟩
  · intro req db' resp hreq hok
    have hst' : findShowtime db req.showtime_id = some st := by
      rw [hreq]; exact hst
    obtain ⟨-, hshow, hscr, -, hbk⟩ :=
      book_seats_ok_inv db req st db' resp hst' hok
    have hst2 : findShowtime db' sid = some st := by
      simp only [findShowtime] at hst ⊢
      rw [hshow]
      exact hst
    have hsc2 : findScreen db' st.screen_id = some screen := by
      simp only [findScreen] at hsc ⊢
      rw [hscr]
      exact hsc
    have hb := bookedSeats_append db' db sid _ hbk hreq
    refine ⟨_, get_seats_ok db' sid st screen hst2 hsc2, ?_⟩
    intro row hrow e he hcode
    refine (seatGrid_mem_available _ _ _ row hrow e he).mpr ?_
    rw [hb]
    exact List.mem_append_right _ hcode

/-- Witness for C6: the seat map of `exDb2` (seat `A1` booked). -/
theorem seatmap_availability_witness :
    ∃ res, get_seats exDb2 "st1" = .ok res ∧
      res.price_map = exShowtime.price_map ∧
      ∀ row ∈ res.grid, ∀ e ∈ row,
        (e.available = false ↔ e.code ∈ bookedSeats exDb2 "st1") :=
  (seatmap_availability exDb2 "st1" exShowtime exScreen
    (by decide) (by decide)).1
